import Mathlib

/-!
Shallow embedding of the nissan-scraper web service
(`src/app/main.py`, `src/app/api/scraper.py`, `src/app/api/health.py`,
`src/app/schemas/vehicle.py`, `src/app/services/scraper_service.py`).

The service is a small FastAPI application: a request schema with one
pydantic `HttpUrl` field, a fourteen-string-field response schema, a stub
scraper service whose body is a bare ellipsis (so every call returns `None`
and never raises), and health/ping endpoints.  Python values crossing the
HTTP boundary are modelled as a small JSON value type; a raised exception is
modelled by the `exn` constructor of `PyResult`.
-/

namespace NissanScraper

/-- JSON values as produced by the framework when serializing handler
return values (dicts, pydantic models, `None`). -/
inductive Json where
  | null
  | bool (b : Bool)
  | str (s : String)
  | arr (elems : List Json)
  | obj (fields : List (String × Json))
deriving Repr

/-- Field lookup in a JSON object; `none` on non-objects and absent keys. -/
def Json.lookup (j : Json) (k : String) : Option Json :=
  match j with
  | .obj fs => fs.lookup k
  | _ => none

/-- Whether a JSON value is a string. -/
def Json.isStr : Json → Bool
  | .str _ => true
  | _ => false

/-- Result of calling a Python function: a normal return value, or a raised
exception carrying its stringified message (`str(e)`). -/
inductive PyResult (α : Type) where
  | ok (a : α)
  | exn (msg : String)
deriving Repr, DecidableEq

/-- Response schema `VehicleData` (src/app/schemas/vehicle.py, lines 16-31):
fourteen required string fields.  The eighth field is internally named
`class_` because `class` is a Python reserved word. -/
structure VehicleData where
  model_designation : String
  year : String
  region : String
  steering : String
  transmission_type : String
  series : String
  engine : String
  class_ : String
  body : String
  additional_body : String
  additional_engine : String
  additional_area : String
  additional_grade : String
  additional_transmission : String
deriving Repr, DecidableEq

/-- Pydantic serialization of a `VehicleData` record to JSON.  No field in
the source declares an alias, so every wire key is the internal field name
verbatim, including `class_` with its trailing underscore. -/
def VehicleData.toJson (v : VehicleData) : Json :=
  Json.obj [
    ("model_designation", Json.str v.model_designation),
    ("year", Json.str v.year),
    ("region", Json.str v.region),
    ("steering", Json.str v.steering),
    ("transmission_type", Json.str v.transmission_type),
    ("series", Json.str v.series),
    ("engine", Json.str v.engine),
    ("class_", Json.str v.class_),
    ("body", Json.str v.body),
    ("additional_body", Json.str v.additional_body),
    ("additional_engine", Json.str v.additional_engine),
    ("additional_area", Json.str v.additional_area),
    ("additional_grade", Json.str v.additional_grade),
    ("additional_transmission", Json.str v.additional_transmission)
  ]

/-- The fourteen field names declared in `VehicleData`, in declaration
order. -/
def vehicle_field_names : List String :=
  ["model_designation", "year", "region", "steering", "transmission_type",
   "series", "engine", "class_", "body", "additional_body",
   "additional_engine", "additional_area", "additional_grade",
   "additional_transmission"]

/-- Whether a JSON value is an object carrying exactly the fourteen
`VehicleData` fields, each of string type. -/
def is_vehicle_object : Json → Bool
  | .obj fs => (fs.map Prod.fst == vehicle_field_names) &&
      fs.all (fun p => p.2.isStr)
  | _ => false

/-- Serialization of the service's return value into the `data` field:
Python `None` becomes JSON `null`; a `VehicleData` record serializes
field-for-field. -/
def optVehicleJson : Option VehicleData → Json
  | none => Json.null
  | some v => VehicleData.toJson v

/-- `ScraperService` (src/app/services/scraper_service.py): its `__init__`
body is a bare ellipsis, so an instance has no fields at all. -/
structure ScraperService where
deriving Repr, DecidableEq

/-- `ScraperService.scrape_vehicle_data` as delivered: the method body is a
bare ellipsis, so the call performs no effect, leaves the instance
unchanged, returns `None`, and never raises. -/
def ScraperService.scrape_vehicle_data (self : ScraperService) (url : String) :
    PyResult (Option VehicleData) × ScraperService :=
  (.ok none, self)

/-- The module-level singleton service instance
(src/app/api/scraper.py, line 6). -/
def scraper_service : ScraperService := {}

/-- Pure view of the delivered stub's input/output behaviour. -/
def delivered_scrape (url : String) : PyResult (Option VehicleData) :=
  (scraper_service.scrape_vehicle_data url).1

/-- An HTTP response: status code plus JSON body. -/
structure Response where
  status : Nat
  body : Json
deriving Repr

/-- The host portion of what follows the scheme separator: everything up to
the first path, query or fragment delimiter. -/
def url_host_part (rest : List Char) : List Char :=
  rest.takeWhile (fun c => !(c == '/') && !(c == '?') && !(c == '#'))

/-- Pydantic `HttpUrl` validation as applied to `VehicleRequest.url`
(src/app/schemas/vehicle.py, line 6): the string must use scheme `http` or
`https`, have a nonempty host, and be at most 2083 characters long. -/
def is_valid_http_url (s : String) : Bool :=
  decide (s.data.length ≤ 2083) &&
  ((("http://".data).isPrefixOf s.data && !(url_host_part (s.data.drop 7)).isEmpty) ||
   (("https://".data).isPrefixOf s.data && !(url_host_part (s.data.drop 8)).isEmpty))

/-- Splitting a character list at the first occurrence of the literal
separator `://`: produces the scheme part and the remainder. -/
def splitScheme : List Char → Option (List Char × List Char)
  | [] => none
  | ':' :: '/' :: '/' :: rest => some ([], rest)
  | c :: cs =>
    match splitScheme cs with
    | some (scheme, rest) => some (c :: scheme, rest)
    | none => none

/-- Modelled from the spec: a "well-formed URL (scheme + host at minimum)"
in the words of section 4.1 — a nonempty alphabetic scheme, the `://`
separator, and a nonempty host.  Used only to compare the spec's stated
validation rule with the pydantic `HttpUrl` rule actually in the source. -/
def spec_wellformed_url (s : String) : Bool :=
  match splitScheme s.data with
  | some (scheme, rest) =>
      !scheme.isEmpty && scheme.all Char.isAlpha && !(url_host_part rest).isEmpty
  | none => false

/-- The `POST /api/v1/scrape-vehicle-data` handler body
(src/app/api/scraper.py, `scrape_vehicle`), parametrized by the behaviour
of `scrape_vehicle_data`: on a normal return the result is wrapped in the
`\x7bsuccess, data\x7d` envelope with status 200; on any exception the
handler raises `HTTPException(500, str(e))`, which the framework renders as
a 500 response whose body is `\x7bdetail: str(e)\x7d`. -/
def scrape_vehicle (service : String → PyResult (Option VehicleData))
    (url : String) : Response :=
  match service url with
  | .ok r =>
      { status := 200,
        body := Json.obj [("success", Json.bool true), ("data", optVehicleJson r)] }
  | .exn m =>
      { status := 500, body := Json.obj [("detail", Json.str m)] }

/-- Body of the framework's automatic 422 validation-error response.  The
field-level detail list is not modelled; no claim inspects it. -/
def validation_422_body : Json := Json.obj [("detail", Json.arr [])]

/-- Request validation for `VehicleRequest` (src/app/schemas/vehicle.py,
lines 4-6): the body must carry a `url` field whose value is a string
accepted by pydantic `HttpUrl`; on success the validated url string is
produced. -/
def validate_request (body : List (String × Json)) : Option String :=
  match body.lookup "url" with
  | some (Json.str s) => if is_valid_http_url s then some s else none
  | _ => none

/-- Outcome of one `POST /api/v1/scrape-vehicle-data` request: the HTTP
response together with how many times the scraper service was invoked. -/
structure HandlerResult where
  response : Response
  service_calls : Nat
deriving Repr

/-- The full `POST /api/v1/scrape-vehicle-data` pipeline: the framework
validates the body against `VehicleRequest`; a failing body yields the
automatic 422 without touching the service; a passing body reaches
`scrape_vehicle` with exactly one service call. -/
def handle_scrape_post (service : String → PyResult (Option VehicleData))
    (body : List (String × Json)) : HandlerResult :=
  match validate_request body with
  | none => { response := { status := 422, body := validation_422_body }, service_calls := 0 }
  | some url => { response := scrape_vehicle service url, service_calls := 1 }

/-- Whether a request body is missing the `url` field or carries a value
that is not a string accepted by pydantic `HttpUrl`. -/
def url_field_invalid (body : List (String × Json)) : Bool :=
  match body.lookup "url" with
  | some (Json.str s) => !is_valid_http_url s
  | some _ => true
  | none => true

/-- The example record from the schema's documented example
(src/app/schemas/vehicle.py, `json_schema_extra`). -/
def example_vehicle : VehicleData :=
  { model_designation := "100nx b13"
    year := "1994"
    region := "Europe"
    steering := "Right hand"
    transmission_type := "Automatic"
    series := "B13"
    engine := "GA16DE TYPE ENGINE"
    class_ := "TYPE A GRADE"
    body := "COUPE T/BAR"
    additional_body := "COUPE T/BAR(C/T)"
    additional_engine := "GA16DE TYPE ENGINE(GA16DE)"
    additional_area := "EUR/A(EUR/A)"
    additional_grade := "TYPE A GRADE(T/A)"
    additional_transmission := "AUTOMATIC TRANSMISSION(AT)" }

/-- Object key list of a JSON value; empty for non-objects. -/
def Json.objKeys : Json → List String
  | .obj fs => fs.map Prod.fst
  | _ => []

/-- Application state shared across requests: the single module-level
service instance is the only module-level object, and it has no fields. -/
structure AppState where
  service : ScraperService
deriving Repr, DecidableEq

/-- The `GET /ping` handler (src/app/api/health.py, `ping`): returns the
constant body and touches no state. -/
def ping (s : AppState) : Json × AppState :=
  (Json.obj [("message", Json.str "pong")], s)

/-- A sequence of `n` consecutive `GET /ping` calls, collecting the bodies
and threading the application state. -/
def pingCalls : Nat → AppState → List Json × AppState
  | 0, s => ([], s)
  | n + 1, s =>
    let r := ping s
    let rest := pingCalls n r.2
    (r.1 :: rest.1, rest.2)

/-- A UTC wall-clock reading, as produced by Python's
`datetime.utcnow()`. -/
structure DateTime where
  year : Nat
  month : Nat
  day : Nat
  hour : Nat
  minute : Nat
  second : Nat
  microsecond : Nat
deriving Repr, DecidableEq

/-- Field ranges of a datetime value (`datetime` enforces these bounds on
construction). -/
def DateTime.valid (d : DateTime) : Prop :=
  d.year ≤ 9999 ∧ 1 ≤ d.month ∧ d.month ≤ 12 ∧ 1 ≤ d.day ∧ d.day ≤ 31 ∧
  d.hour ≤ 23 ∧ d.minute ≤ 59 ∧ d.second ≤ 59 ∧ d.microsecond ≤ 999999

instance (d : DateTime) : Decidable d.valid := by
  unfold DateTime.valid; infer_instance

/-- The decimal digit character of `d mod 10`. -/
def digitChar (d : Nat) : Char := Char.ofNat (48 + d % 10)

/-- `padDigits k n`: the last `k` decimal digits of `n`, zero-padded to
width `k` — the fixed-width field rendering used by `isoformat`. -/
def padDigits : Nat → Nat → List Char
  | 0, _ => []
  | k + 1, n => padDigits k (n / 10) ++ [digitChar n]

/-- Character-list form of Python's `datetime.isoformat()` output:
`YYYY-MM-DDTHH:MM:SS`, with `.ffffff` appended exactly when the
microsecond field is nonzero. -/
def DateTime.isoformatChars (d : DateTime) : List Char :=
  padDigits 4 d.year ++ '-' :: (padDigits 2 d.month ++ '-' ::
    (padDigits 2 d.day ++ 'T' :: (padDigits 2 d.hour ++ ':' ::
      (padDigits 2 d.minute ++ ':' :: (padDigits 2 d.second ++
        (if d.microsecond = 0 then []
         else '.' :: padDigits 6 d.microsecond))))))

/-- `datetime.isoformat()` as a string. -/
def DateTime.isoformat (d : DateTime) : String := String.mk d.isoformatChars

/-- Numeric value of a decimal digit character; `none` on anything else. -/
def digitVal (c : Char) : Option Nat :=
  if 48 ≤ c.toNat ∧ c.toNat ≤ 57 then some (c.toNat - 48) else none

/-- Left-to-right accumulation of a decimal digit string onto `acc`;
`none` as soon as a non-digit appears. -/
def parseDigitsFrom : Nat → List Char → Option Nat
  | acc, [] => some acc
  | acc, c :: cs =>
    match digitVal c with
    | some d => parseDigitsFrom (acc * 10 + d) cs
    | none => none

/-- The numeric value of an all-digit character list. -/
def parseDigits (cs : List Char) : Option Nat := parseDigitsFrom 0 cs

/-- The fractional-seconds tail of an ISO-8601 timestamp: empty means zero
microseconds; otherwise a dot followed by exactly six digits. -/
def parseFrac : List Char → Option Nat
  | [] => some 0
  | '.' :: f1 :: f2 :: f3 :: f4 :: f5 :: f6 :: [] =>
      parseDigits [f1, f2, f3, f4, f5, f6]
  | _ => none

/-- Parser for the exact shape emitted by `isoformat`: fixed-width date and
time fields, the `-`, `T` and `:` separators, and an optional six-digit
fractional part. -/
def isoParseChars : List Char → Option DateTime
  | y1 :: y2 :: y3 :: y4 :: c1 :: m1 :: m2 :: c2 :: d1 :: d2 :: c3 ::
      h1 :: h2 :: c4 :: n1 :: n2 :: c5 :: s1 :: s2 :: rest =>
    if c1 = '-' ∧ c2 = '-' ∧ c3 = 'T' ∧ c4 = ':' ∧ c5 = ':' then
      match parseDigits [y1, y2, y3, y4], parseDigits [m1, m2],
            parseDigits [d1, d2], parseDigits [h1, h2],
            parseDigits [n1, n2], parseDigits [s1, s2], parseFrac rest with
      | some y, some mo, some da, some ho, some mi, some se, some us =>
          some ⟨y, mo, da, ho, mi, se, us⟩
      | _, _, _, _, _, _, _ => none
    else none
  | _ => none

/-- ISO-8601 timestamp parsing, inverse to `DateTime.isoformat` on valid
datetime values. -/
def isoParse (s : String) : Option DateTime := isoParseChars s.data

/-- Chronological order key of a datetime value: the fields combined in
mixed radix, so that for in-range values `dtKey` is monotone exactly in
field-lexicographic (that is, chronological) order. -/
def dtKey (d : DateTime) : Nat :=
  (((((d.year * 13 + d.month) * 32 + d.day) * 24 + d.hour) * 60 + d.minute) * 60
      + d.second) * 1000000 + d.microsecond

/-- Body of a `GET /health` response. -/
structure HealthBody where
  status : String
  timestamp : String
  service : String
deriving Repr, DecidableEq

/-- The `GET /health` handler (src/app/api/health.py, `health_check`): the
fixed status and service name plus the `isoformat` rendering of the UTC
wall-clock reading taken at call time. -/
def health_check (now : DateTime) : HealthBody :=
  { status := "healthy",
    timestamp := now.isoformat,
    service := "Nissan Scraper API" }

theorem pingCalls_eq (n : Nat) (s : AppState) :
    pingCalls n s = (List.replicate n (Json.obj [("message", Json.str "pong")]), s) := by
  induction n with
  | zero => rfl
  | succ n ih => simp [pingCalls, ping, ih, List.replicate]

/-- Claim C5 counterexample: as delivered, `scrape_vehicle_data` completes
without raising on `https://example.com` but returns `None`, which is not a
`VehicleData` record — the stated "return value is a value of that record
type" fails. -/
theorem scrape_returns_none_counterexample :
    delivered_scrape "https://example.com" = PyResult.ok none ∧
    ¬ ∃ v : VehicleData,
        delivered_scrape "https://example.com" = PyResult.ok (some v) := by
  refine ⟨rfl, ?_⟩
  rintro ⟨v, hv⟩
  simp [delivered_scrape, ScraperService.scrape_vehicle_data] at hv

/-- Claim C5 (amended): `scrape_vehicle_data` is an asynchronous operation
on a url string, but as delivered its body is a bare ellipsis, so for every
url and every service instance it completes without raising and returns
`None` (its annotation is `Dict[str, Any]`, and no `VehicleData` record is
produced). -/
theorem scrape_stub_returns_none (s : ScraperService) (url : String) :
    s.scrape_vehicle_data url = (PyResult.ok none, s) := rfl

/-- Claim C1 counterexample: the body `\x7burl: https://example.com\x7d`
passes validation and the delivered service completes without raising, yet
the 200 response's `data` field is `null`, not an object with the fourteen
`VehicleData` fields. -/
theorem scrape_success_data_null_counterexample :
    validate_request [("url", Json.str "https://example.com")] = some "https://example.com" ∧
    delivered_scrape "https://example.com" = PyResult.ok none ∧
    (handle_scrape_post delivered_scrape
        [("url", Json.str "https://example.com")]).response.status = 200 ∧
    (handle_scrape_post delivered_scrape
        [("url", Json.str "https://example.com")]).response.body.lookup "data"
      = some Json.null ∧
    is_vehicle_object Json.null = false :=
  ⟨rfl, rfl, rfl, rfl, rfl⟩

/-- Claim C1 (amended): for every request whose body passes schema
validation, if the service completes without raising then the handler
returns status 200 with `success` true and `data` the serialization of the
service's return value; `data` is an object with exactly the fourteen
`VehicleData` fields, each a string, exactly when the service returned a
`VehicleData` record (as delivered the service returns `None`, so `data`
is `null`). -/
theorem scrape_success_envelope (service : String → PyResult (Option VehicleData))
    (body : List (String × Json)) (url : String) (r : Option VehicleData)
    (hv : validate_request body = some url) (hr : service url = PyResult.ok r) :
    (handle_scrape_post service body).response.status = 200 ∧
    (handle_scrape_post service body).response.body.lookup "success"
      = some (Json.bool true) ∧
    (handle_scrape_post service body).response.body.lookup "data"
      = some (optVehicleJson r) ∧
    (∀ v, r = some v → is_vehicle_object (optVehicleJson r) = true) := by
  simp only [handle_scrape_post, hv, scrape_vehicle, hr]
  refine ⟨by trivial, by trivial, by trivial, ?_⟩
  rintro v rfl
  rfl

/-- Claim C1 witness: a service returning the documented example record at
the example url produces the 200 envelope with the serialized record as
`data`. -/
theorem scrape_success_envelope_witness :
    (handle_scrape_post (fun _ => PyResult.ok (some example_vehicle))
        [("url", Json.str "https://example.com")]).response.status = 200 ∧
    (handle_scrape_post (fun _ => PyResult.ok (some example_vehicle))
        [("url", Json.str "https://example.com")]).response.body.lookup "success"
      = some (Json.bool true) ∧
    (handle_scrape_post (fun _ => PyResult.ok (some example_vehicle))
        [("url", Json.str "https://example.com")]).response.body.lookup "data"
      = some (optVehicleJson (some example_vehicle)) ∧
    (∀ v, (some example_vehicle : Option VehicleData) = some v →
      is_vehicle_object (optVehicleJson (some example_vehicle)) = true) :=
  scrape_success_envelope (fun _ => PyResult.ok (some example_vehicle))
    [("url", Json.str "https://example.com")] "https://example.com"
    (some example_vehicle) rfl rfl

/-- Claim C2: whenever the service raises, with any message, the handler
returns status 500 with body `\x7bdetail: str(e)\x7d` and no `data` field;
the shape does not depend on the kind of exception, only on its message
string. -/
theorem scrape_error_envelope (service : String → PyResult (Option VehicleData))
    (body : List (String × Json)) (url m : String)
    (hv : validate_request body = some url) (he : service url = PyResult.exn m) :
    (handle_scrape_post service body).response.status = 500 ∧
    (handle_scrape_post service body).response.body
      = Json.obj [("detail", Json.str m)] ∧
    (handle_scrape_post service body).response.body.lookup "detail"
      = some (Json.str m) ∧
    (handle_scrape_post service body).response.body.lookup "data" = none := by
  simp only [handle_scrape_post, hv, scrape_vehicle, he]
  exact ⟨by trivial, by trivial, by trivial, by trivial⟩

/-- Claim C2 witness: a service raising an exception with message `boom`
yields the 500 detail envelope. -/
theorem scrape_error_envelope_witness :
    (handle_scrape_post (fun _ => PyResult.exn "boom")
        [("url", Json.str "https://example.com")]).response.status = 500 ∧
    (handle_scrape_post (fun _ => PyResult.exn "boom")
        [("url", Json.str "https://example.com")]).response.body
      = Json.obj [("detail", Json.str "boom")] ∧
    (handle_scrape_post (fun _ => PyResult.exn "boom")
        [("url", Json.str "https://example.com")]).response.body.lookup "detail"
      = some (Json.str "boom") ∧
    (handle_scrape_post (fun _ => PyResult.exn "boom")
        [("url", Json.str "https://example.com")]).response.body.lookup "data"
      = none :=
  scrape_error_envelope (fun _ => PyResult.exn "boom")
    [("url", Json.str "https://example.com")] "https://example.com" "boom" rfl rfl

/-- Claim C3: a request body that is missing the `url` field, or whose
`url` value is not a string accepted by the url validation, yields status
422 with zero calls to the scraper service. -/
theorem invalid_url_rejected (service : String → PyResult (Option VehicleData))
    (body : List (String × Json)) (h : url_field_invalid body = true) :
    (handle_scrape_post service body).response.status = 422 ∧
    (handle_scrape_post service body).service_calls = 0 := by
  unfold url_field_invalid at h
  cases hlk : body.lookup "url" with
  | none => simp [handle_scrape_post, validate_request, hlk]
  | some j =>
    rw [hlk] at h
    cases j with
    | str s =>
      have hs : is_valid_http_url s = false := by simpa using h
      simp [handle_scrape_post, validate_request, hlk, hs]
    | null => simp [handle_scrape_post, validate_request, hlk]
    | bool b => simp [handle_scrape_post, validate_request, hlk]
    | arr es => simp [handle_scrape_post, validate_request, hlk]
    | obj fs => simp [handle_scrape_post, validate_request, hlk]

/-- Claim C3 witness: the body `\x7burl: not-a-url\x7d` is rejected with
422 and the service is never called. -/
theorem invalid_url_rejected_witness :
    (handle_scrape_post delivered_scrape
        [("url", Json.str "not-a-url")]).response.status = 422 ∧
    (handle_scrape_post delivered_scrape
        [("url", Json.str "not-a-url")]).service_calls = 0 :=
  invalid_url_rejected delivered_scrape [("url", Json.str "not-a-url")] (by decide)

/-- Claim C4 counterexample: `ftp://example.com` is a well-formed URL with
scheme and host in the spec's sense, yet pydantic `HttpUrl` rejects it —
the endpoint answers 422 and the service is never invoked, refuting "every
such URL passes validation". -/
theorem http_url_scheme_counterexample :
    spec_wellformed_url "ftp://example.com" = true ∧
    is_valid_http_url "ftp://example.com" = false ∧
    validate_request [("url", Json.str "ftp://example.com")] = none ∧
    (handle_scrape_post delivered_scrape
        [("url", Json.str "ftp://example.com")]).response.status = 422 ∧
    (handle_scrape_post delivered_scrape
        [("url", Json.str "ftp://example.com")]).service_calls = 0 :=
  ⟨by decide, by decide, rfl, rfl, rfl⟩

/-- Claim C4 (amended): validation accepts exactly the url strings accepted
by pydantic `HttpUrl` — scheme `http` or `https`, a nonempty host, at most
2083 characters; an accepted value reaches the service (exactly one call)
and every other string value fails validation with a 422 before the service
runs. -/
theorem validation_boundary (service : String → PyResult (Option VehicleData))
    (body : List (String × Json)) (s : String)
    (h : body.lookup "url" = some (Json.str s)) :
    (is_valid_http_url s = true →
      validate_request body = some s ∧
      (handle_scrape_post service body).service_calls = 1) ∧
    (is_valid_http_url s = false →
      (handle_scrape_post service body).response.status = 422 ∧
      (handle_scrape_post service body).service_calls = 0) := by
  constructor <;> intro hb <;>
    simp [handle_scrape_post, validate_request, h, hb]

/-- Claim C4 witness: `https://example.com` passes `HttpUrl` validation and
is handed to the service with exactly one call. -/
theorem validation_boundary_witness :
    (is_valid_http_url "https://example.com" = true →
      validate_request [("url", Json.str "https://example.com")]
        = some "https://example.com" ∧
      (handle_scrape_post delivered_scrape
          [("url", Json.str "https://example.com")]).service_calls = 1) ∧
    (is_valid_http_url "https://example.com" = false →
      (handle_scrape_post delivered_scrape
          [("url", Json.str "https://example.com")]).response.status = 422 ∧
      (handle_scrape_post delivered_scrape
          [("url", Json.str "https://example.com")]).service_calls = 0) :=
  validation_boundary delivered_scrape
    [("url", Json.str "https://example.com")] "https://example.com" rfl

/-- Claim C6: as delivered, `scrape_vehicle_data` never raises and returns
`None` for every url, every schema-valid request yields status 200 with
body `\x7bsuccess: true, data: null\x7d`, and no request whatsoever can
reach the handler's 500 branch. -/
theorem stub_service_success_path (body : List (String × Json)) (url : String)
    (h : validate_request body = some url) :
    delivered_scrape url = PyResult.ok none ∧
    handle_scrape_post delivered_scrape body =
      { response :=
          { status := 200,
            body := Json.obj [("success", Json.bool true), ("data", Json.null)] },
        service_calls := 1 } ∧
    (∀ b : List (String × Json),
      (handle_scrape_post delivered_scrape b).response.status ≠ 500) := by
  refine ⟨rfl, ?_, ?_⟩
  · simp only [handle_scrape_post, h, scrape_vehicle, delivered_scrape,
      ScraperService.scrape_vehicle_data, optVehicleJson]
  · intro b
    unfold handle_scrape_post
    cases validate_request b <;>
      simp [scrape_vehicle, delivered_scrape, ScraperService.scrape_vehicle_data]

/-- Claim C6 witness: the example request body takes the delivered success
path. -/
theorem stub_service_success_path_witness :
    delivered_scrape "https://example.com" = PyResult.ok none ∧
    handle_scrape_post delivered_scrape [("url", Json.str "https://example.com")] =
      { response :=
          { status := 200,
            body := Json.obj [("success", Json.bool true), ("data", Json.null)] },
        service_calls := 1 } ∧
    (∀ b : List (String × Json),
      (handle_scrape_post delivered_scrape b).response.status ≠ 500) :=
  stub_service_success_path [("url", Json.str "https://example.com")]
    "https://example.com" rfl

/-- Claim C7 counterexample: serializing the documented example record
exposes no key named `class`; the record's class value sits under the key
`class_`, trailing underscore intact. -/
theorem class_key_counterexample :
    (example_vehicle.toJson).lookup "class" = none ∧
    (example_vehicle.toJson).lookup "class_" = some (Json.str "TYPE A GRADE") :=
  ⟨rfl, rfl⟩

/-- Claim C7 (amended): serialization of a `VehicleData` record maps each
field to a JSON key equal to the internal field name, so the field
internally named `class_` is exposed on the wire under the key `class_`
itself — no alias strips the trailing underscore, and no key named `class`
exists. -/
theorem vehicle_serialization_keys (v : VehicleData) :
    v.toJson.objKeys = vehicle_field_names ∧
    v.toJson.lookup "class_" = some (Json.str v.class_) ∧
    v.toJson.lookup "class" = none ∧
    v.toJson.lookup "model_designation" = some (Json.str v.model_designation) ∧
    v.toJson.lookup "year" = some (Json.str v.year) ∧
    v.toJson.lookup "region" = some (Json.str v.region) ∧
    v.toJson.lookup "steering" = some (Json.str v.steering) ∧
    v.toJson.lookup "transmission_type" = some (Json.str v.transmission_type) ∧
    v.toJson.lookup "series" = some (Json.str v.series) ∧
    v.toJson.lookup "engine" = some (Json.str v.engine) ∧
    v.toJson.lookup "body" = some (Json.str v.body) ∧
    v.toJson.lookup "additional_body" = some (Json.str v.additional_body) ∧
    v.toJson.lookup "additional_engine" = some (Json.str v.additional_engine) ∧
    v.toJson.lookup "additional_area" = some (Json.str v.additional_area) ∧
    v.toJson.lookup "additional_grade" = some (Json.str v.additional_grade) ∧
    v.toJson.lookup "additional_transmission"
      = some (Json.str v.additional_transmission) := by
  refine ⟨rfl, rfl, rfl, rfl, rfl, rfl, rfl, rfl, rfl, rfl, rfl, rfl, rfl, rfl, rfl, rfl⟩

/-- Claim C9: `GET /ping` is idempotent and side-effect free — every call
returns the literal body `\x7bmessage: pong\x7d` and leaves the application
state unchanged, and any number of repeated calls returns that identical
body every time. -/
theorem ping_idempotent (s : AppState) (n : Nat) :
    ping s = (Json.obj [("message", Json.str "pong")], s) ∧
    (pingCalls n s).1 = List.replicate n (Json.obj [("message", Json.str "pong")]) ∧
    (pingCalls n s).2 = s :=
  ⟨rfl, by rw [pingCalls_eq], by rw [pingCalls_eq]⟩

/-- Claim C10: the scraper service holds no mutable state — its constructor
establishes no fields (any two instances are equal, and every instance is
the module-level singleton), and `scrape_vehicle_data` leaves the instance
it is called on unchanged. -/
theorem scraper_service_stateless (s : ScraperService) (url : String) :
    (s.scrape_vehicle_data url).2 = s ∧
    s = scraper_service ∧
    (∀ t : ScraperService, s = t) := by
  cases s
  exact ⟨rfl, rfl, fun t => by cases t; rfl⟩

theorem digitVal_digitChar (d : Nat) : digitVal (digitChar d) = some (d % 10) := by
  have h : d % 10 < 10 := Nat.mod_lt _ (by decide)
  unfold digitChar
  generalize d % 10 = r at h ⊢
  interval_cases r <;> decide

theorem padDigits_two (n : Nat) :
    padDigits 2 n = [digitChar (n / 10), digitChar n] := rfl

theorem padDigits_four (n : Nat) :
    padDigits 4 n =
      [digitChar (n / 10 / 10 / 10), digitChar (n / 10 / 10),
       digitChar (n / 10), digitChar n] := rfl

theorem padDigits_six (n : Nat) :
    padDigits 6 n =
      [digitChar (n / 10 / 10 / 10 / 10 / 10), digitChar (n / 10 / 10 / 10 / 10),
       digitChar (n / 10 / 10 / 10), digitChar (n / 10 / 10),
       digitChar (n / 10), digitChar n] := rfl

theorem parseDigits_two (n : Nat) (h : n < 100) :
    parseDigits [digitChar (n / 10), digitChar n] = some n := by
  simp only [parseDigits, parseDigitsFrom, digitVal_digitChar, Option.some.injEq]
  omega

theorem parseDigits_four (n : Nat) (h : n < 10000) :
    parseDigits [digitChar (n / 10 / 10 / 10), digitChar (n / 10 / 10),
      digitChar (n / 10), digitChar n] = some n := by
  simp only [parseDigits, parseDigitsFrom, digitVal_digitChar, Option.some.injEq]
  omega

theorem parseDigits_six (n : Nat) (h : n < 1000000) :
    parseDigits [digitChar (n / 10 / 10 / 10 / 10 / 10), digitChar (n / 10 / 10 / 10 / 10),
      digitChar (n / 10 / 10 / 10), digitChar (n / 10 / 10),
      digitChar (n / 10), digitChar n] = some n := by
  simp only [parseDigits, parseDigitsFrom, digitVal_digitChar, Option.some.injEq]
  omega

theorem isoParse_isoformat (d : DateTime) (h : d.valid) :
    isoParse d.isoformat = some d := by
  obtain ⟨y, mo, da, ho, mi, se, us⟩ := d
  simp only [DateTime.valid] at h
  obtain ⟨hy, hm1, hm2, hd1, hd2, hh, hmi2, hse, hus⟩ := h
  show isoParseChars (DateTime.isoformatChars ⟨y, mo, da, ho, mi, se, us⟩)
      = some ⟨y, mo, da, ho, mi, se, us⟩
  by_cases hz : us = 0
  · subst hz
    show isoParseChars
        [digitChar (y / 10 / 10 / 10), digitChar (y / 10 / 10), digitChar (y / 10),
         digitChar y, '-', digitChar (mo / 10), digitChar mo, '-',
         digitChar (da / 10), digitChar da, 'T', digitChar (ho / 10), digitChar ho,
         ':', digitChar (mi / 10), digitChar mi, ':', digitChar (se / 10),
         digitChar se]
        = some ⟨y, mo, da, ho, mi, se, 0⟩
    simp only [isoParseChars]
    rw [if_pos (by simp)]
    rw [parseDigits_four y (by omega), parseDigits_two mo (by omega),
      parseDigits_two da (by omega), parseDigits_two ho (by omega),
      parseDigits_two mi (by omega), parseDigits_two se (by omega)]
    rfl
  · have e : DateTime.isoformatChars ⟨y, mo, da, ho, mi, se, us⟩ =
        padDigits 4 y ++ '-' :: (padDigits 2 mo ++ '-' :: (padDigits 2 da ++ 'T' ::
          (padDigits 2 ho ++ ':' :: (padDigits 2 mi ++ ':' ::
            (padDigits 2 se ++ '.' :: padDigits 6 us))))) := by
      simp [DateTime.isoformatChars, hz]
    rw [e]
    show isoParseChars
        [digitChar (y / 10 / 10 / 10), digitChar (y / 10 / 10), digitChar (y / 10),
         digitChar y, '-', digitChar (mo / 10), digitChar mo, '-',
         digitChar (da / 10), digitChar da, 'T', digitChar (ho / 10), digitChar ho,
         ':', digitChar (mi / 10), digitChar mi, ':', digitChar (se / 10),
         digitChar se, '.',
         digitChar (us / 10 / 10 / 10 / 10 / 10), digitChar (us / 10 / 10 / 10 / 10),
         digitChar (us / 10 / 10 / 10), digitChar (us / 10 / 10),
         digitChar (us / 10), digitChar us]
        = some ⟨y, mo, da, ho, mi, se, us⟩
    simp only [isoParseChars]
    rw [if_pos (by simp)]
    rw [show parseFrac ['.',
          digitChar (us / 10 / 10 / 10 / 10 / 10), digitChar (us / 10 / 10 / 10 / 10),
          digitChar (us / 10 / 10 / 10), digitChar (us / 10 / 10),
          digitChar (us / 10), digitChar us] =
        parseDigits [digitChar (us / 10 / 10 / 10 / 10 / 10),
          digitChar (us / 10 / 10 / 10 / 10), digitChar (us / 10 / 10 / 10),
          digitChar (us / 10 / 10), digitChar (us / 10), digitChar us] from rfl]
    rw [parseDigits_four y (by omega), parseDigits_two mo (by omega),
      parseDigits_two da (by omega), parseDigits_two ho (by omega),
      parseDigits_two mi (by omega), parseDigits_two se (by omega),
      parseDigits_six us (by omega)]

/-- Claim C8: every `GET /health` call returns status `healthy` and service
`Nissan Scraper API`, with a timestamp string that parses as ISO-8601 and
denotes exactly the UTC wall-clock reading taken fresh at that call; across
any sequence of calls whose successive clock readings are non-decreasing,
the times denoted by the returned timestamps are monotonically
non-decreasing. -/
theorem health_check_contract (clock : Nat → DateTime)
    (hv : ∀ i, (clock i).valid)
    (hm : ∀ i j, i ≤ j → dtKey (clock i) ≤ dtKey (clock j)) :
    (∀ i, (health_check (clock i)).status = "healthy" ∧
      (health_check (clock i)).service = "Nissan Scraper API" ∧
      isoParse (health_check (clock i)).timestamp = some (clock i)) ∧
    (∀ i j, i ≤ j → ∃ di dj,
      isoParse (health_check (clock i)).timestamp = some di ∧
      isoParse (health_check (clock j)).timestamp = some dj ∧
      dtKey di ≤ dtKey dj) := by
  refine ⟨fun i => ⟨rfl, rfl, isoParse_isoformat _ (hv i)⟩, fun i j hij => ?_⟩
  exact ⟨clock i, clock j, isoParse_isoformat _ (hv i),
    isoParse_isoformat _ (hv j), hm i j hij⟩

/-- Claim C8 witness: a constant clock reading 2024-05-06T07:08:09.000010
satisfies the validity and monotonicity hypotheses, and the contract holds
for it. -/
theorem health_check_contract_witness :
    (∀ i : Nat, (health_check ((fun _ => (⟨2024, 5, 6, 7, 8, 9, 10⟩ : DateTime)) i)).status
        = "healthy" ∧
      (health_check ((fun _ => (⟨2024, 5, 6, 7, 8, 9, 10⟩ : DateTime)) i)).service
        = "Nissan Scraper API" ∧
      isoParse (health_check
          ((fun _ => (⟨2024, 5, 6, 7, 8, 9, 10⟩ : DateTime)) i)).timestamp
        = some ((fun _ => (⟨2024, 5, 6, 7, 8, 9, 10⟩ : DateTime)) i)) ∧
    (∀ i j : Nat, i ≤ j → ∃ di dj,
      isoParse (health_check
          ((fun _ => (⟨2024, 5, 6, 7, 8, 9, 10⟩ : DateTime)) i)).timestamp
        = some di ∧
      isoParse (health_check
          ((fun _ => (⟨2024, 5, 6, 7, 8, 9, 10⟩ : DateTime)) j)).timestamp
        = some dj ∧
      dtKey di ≤ dtKey dj) :=
  health_check_contract (fun _ => (⟨2024, 5, 6, 7, 8, 9, 10⟩ : DateTime))
    (fun _ => show (⟨2024, 5, 6, 7, 8, 9, 10⟩ : DateTime).valid by decide)
    (fun i j h => Nat.le_refl _)

end NissanScraper
